import Mathlib

/-!
Verification of the Curve pool scanner (`filter_high_apy_pools.py`).

The script reads two JSON documents, joins them on a lower-cased pool
address, scores each gauge entry and filters by yield and liquidity
thresholds.  We embed the data model and the filtering pipeline as
executable Lean definitions.  JSON numbers are modelled as rationals
(the script only adds and compares them), JSON objects as structures
with `Option` fields (`none` = key absent), and Python dicts built by
overwriting assignment as folds over lookup functions.  Python's
`str.lower` and substring test are modelled character-wise.
-/

/-- Outcome of reading and JSON-parsing one input file:
`FileNotFoundError`, `json.JSONDecodeError`, or a parsed document. -/
inductive LoadResult (α : Type) where
  | fileNotFound : LoadResult α
  | invalidJson : LoadResult α
  | parsed : α → LoadResult α
deriving DecidableEq

/-- One element of a pool record's `gaugeRewards` list; the script reads
only its `apy` key (`reward.get('apy', 0.0)`). -/
structure RewardRecord where
  apy : Option ℚ
deriving DecidableEq

/-- One record of Document B's `data.poolData` sequence.  The script reads
`address` (default `''`), `usdTotal` (default `0`) and `gaugeRewards`
(default `[]`). -/
structure PoolRecord where
  address : Option String
  usdTotal : Option ℚ
  gaugeRewards : Option (List RewardRecord)
deriving DecidableEq

/-- The `data` payload of Document B; `poolData` is accessed with
`['poolData']`, so its absence raises a `KeyError` (caught by the generic
handler). -/
structure AllPoolsData where
  poolData : Option (List PoolRecord)
deriving DecidableEq

/-- Top level of Document B (`all-pools.json`): `success` flag and `data`
payload. -/
structure AllPoolsDoc where
  success : Option Bool
  data : Option AllPoolsData
deriving DecidableEq

/-- One gauge record of Document A, keyed by pool name.  Fields the
script reads: `isPool` (default `False`), `gaugeCrvApy` (must be a
two-element list of nullable numbers), `hasNoCrv` (default `False`),
`type` (compared to `'stable'`), `swap` (join key, default `''`). -/
structure GaugeRecord where
  isPool : Option Bool
  gaugeCrvApy : Option (List (Option ℚ))
  hasNoCrv : Option Bool
  type : Option String
  swap : Option String
deriving DecidableEq

/-- Top level of Document A (`curvefi-all-guages.json`): `success` flag
and `data`, a name-keyed mapping of gauge records (Python dicts preserve
insertion order, so we keep an association list). -/
structure GaugesDoc where
  success : Option Bool
  data : Option (List (String × GaugeRecord))
deriving DecidableEq

/-- Python `str.lower()` (character-wise, as used on ASCII addresses and
pool names). -/
def lowerStr (s : String) : String :=
  String.mk (s.data.map Char.toLower)

/-- Helper for the Python substring test: does `sub` occur as a
contiguous run inside `l`? -/
def hasInfixChars (sub : List Char) : List Char → Bool
  | [] => sub.isEmpty
  | c :: cs => sub.isPrefixOf (c :: cs) || hasInfixChars sub cs

/-- Python `sub in s` on strings. -/
def containsSub (s : String) (sub : String) : Bool :=
  hasInfixChars sub.data s.data

/-- The key a Document B record is indexed under:
`pool.get('address', '').lower()`. -/
def pool_record_key (pool : PoolRecord) : String :=
  lowerStr (pool.address.getD "")

/-- The extra-rewards APY computed for one Document B record: the sum of
`reward.get('apy', 0.0)` over `pool.get('gaugeRewards', [])` (the
`if gauge_rewards:` guard in the source only skips an empty loop). -/
def extra_apy_of (pool : PoolRecord) : ℚ :=
  ((pool.gaugeRewards.getD []).map (fun reward => reward.apy.getD 0)).sum

/-- The dict `pool_usd_lookup`: built by a forward pass over `poolData`,
each record overwriting its key with `pool.get('usdTotal', 0)`. -/
def pool_usd_lookup (poolData : List PoolRecord) : String → Option ℚ :=
  poolData.foldl
    (fun lookup pool => fun k =>
      if k = pool_record_key pool then some (pool.usdTotal.getD 0) else lookup k)
    (fun _ => none)

/-- The dict `pool_extra_rewards_lookup`: same forward pass, each record
overwriting its key with its summed extra-rewards APY. -/
def pool_extra_rewards_lookup (poolData : List PoolRecord) : String → Option ℚ :=
  poolData.foldl
    (fun lookup pool => fun k =>
      if k = pool_record_key pool then some (extra_apy_of pool) else lookup k)
    (fun _ => none)

/-- The join key of a gauge entry: `pool_info.get('swap', '').lower()`. -/
def pool_address_of (pool_info : GaugeRecord) : String :=
  lowerStr (pool_info.swap.getD "")

/-- Data carried by a gauge entry that survives every `continue` of the
loop body (qualification items 1-6): the two nullable CRV APY values,
the joined extra-rewards APY and the joined USD total. -/
structure Survivor where
  a0 : Option ℚ
  a1 : Option ℚ
  extra_apy : ℚ
  usd_total : ℚ
deriving DecidableEq

/-- `total_apy_0 = (gauge_crv_apy[0] if not None else 0) + extra_apy`. -/
def total_apy_0 (s : Survivor) : ℚ := s.a0.getD 0 + s.extra_apy

/-- `total_apy_1 = (gauge_crv_apy[1] if not None else 0) + extra_apy`. -/
def total_apy_1 (s : Survivor) : ℚ := s.a1.getD 0 + s.extra_apy

/-- The loop body of `filter_high_apy_pools` up to and including the USD
threshold check: returns `none` exactly when one of the six `continue`
statements fires (not a pool; `gaugeCrvApy` missing, not a list, or not
two elements; `hasNoCrv`; type not `'stable'`; name contains `btc`/`eth`;
joined `usdTotal` below `min_usd_total`). -/
def score_pool_entry (usd_lookup extra_lookup : String → Option ℚ)
    (min_usd_total : ℚ) (pool_name : String) (pool_info : GaugeRecord) :
    Option Survivor :=
  if pool_info.isPool.getD false = false then none
  else
    match pool_info.gaugeCrvApy with
    | some [a0, a1] =>
      if pool_info.hasNoCrv.getD false then none
      else if pool_info.type ≠ some "stable" then none
      else if containsSub (lowerStr pool_name) "btc" || containsSub (lowerStr pool_name) "eth" then none
      else
        let pool_address := pool_address_of pool_info
        let usd_total := (usd_lookup pool_address).getD 0
        if usd_total < min_usd_total then none
        else
          some { a0 := a0, a1 := a1,
                 extra_apy := (extra_lookup pool_address).getD 0,
                 usd_total := usd_total }
    | _ => none

/-- The dictionary appended to `high_apy_pools` for a qualifying entry. -/
structure ScoredPool where
  name : String
  pool_info : GaugeRecord
  gaugeCrvApy : List (Option ℚ)
  extra_rewards_apy : ℚ
  total_apy_range : ℚ × ℚ
  max_apy : ℚ
  usd_total : ℚ
deriving DecidableEq

/-- Builds the `pool_entry` dictionary of the source (lines 103-111). -/
def make_pool_entry (pool_name : String) (pool_info : GaugeRecord) (s : Survivor) :
    ScoredPool :=
  { name := pool_name
    pool_info := pool_info
    gaugeCrvApy := [s.a0, s.a1]
    extra_rewards_apy := s.extra_apy
    total_apy_range := (total_apy_0 s, total_apy_1 s)
    max_apy := max (total_apy_0 s) (total_apy_1 s)
    usd_total := s.usd_total }

/-- The dictionary appended to `all_pools_with_apy` (lines 116-121). -/
structure ApyDiagEntry where
  name : String
  gaugeCrvApy : List (Option ℚ)
  extra_rewards_apy : ℚ
  hasNoCrv : Bool
deriving DecidableEq

/-- Builds the diagnostic dictionary of the source (lines 116-121). -/
def make_apy_diag_entry (pool_name : String) (pool_info : GaugeRecord) (s : Survivor) :
    ApyDiagEntry :=
  { name := pool_name
    gaugeCrvApy := [s.a0, s.a1]
    extra_rewards_apy := s.extra_apy
    hasNoCrv := pool_info.hasNoCrv.getD false }

/-- The `high_apy_pools` list before sorting.  The source loop appends to
`high_apy_pools` and `all_pools_with_apy` independently in each
iteration, so the two lists are the two filterMaps of the entry
sequence. -/
def high_apy_pools_of (poolData : List PoolRecord)
    (entries : List (String × GaugeRecord)) (min_apy min_usd_total : ℚ) :
    List ScoredPool :=
  entries.filterMap (fun e =>
    (score_pool_entry (pool_usd_lookup poolData) (pool_extra_rewards_lookup poolData)
        min_usd_total e.1 e.2).bind (fun s =>
      if total_apy_0 s > min_apy ∨ total_apy_1 s > min_apy
      then some (make_pool_entry e.1 e.2 s) else none))

/-- The `all_pools_with_apy` diagnostic list (line 115: collected by the
same loop, after all six `continue`s, whenever a total APY is
non-zero positive). -/
def all_pools_with_apy_of (poolData : List PoolRecord)
    (entries : List (String × GaugeRecord)) (min_usd_total : ℚ) :
    List ApyDiagEntry :=
  entries.filterMap (fun e =>
    (score_pool_entry (pool_usd_lookup poolData) (pool_extra_rewards_lookup poolData)
        min_usd_total e.1 e.2).bind (fun s =>
      if total_apy_0 s > 0 ∨ total_apy_1 s > 0
      then some (make_apy_diag_entry e.1 e.2 s) else none))

/-- Stable descending insertion: the new element goes after every
already-placed element with a strictly larger key and before the first
element whose key is not larger.  Inserting the earliest element last
into the sorted rest reproduces Python's stable `sort(reverse=True)`. -/
def insert_by_max_apy_desc (x : ScoredPool) : List ScoredPool → List ScoredPool
  | [] => [x]
  | y :: ys =>
    if x.max_apy < y.max_apy then y :: insert_by_max_apy_desc x ys
    else x :: y :: ys

/-- `high_apy_pools.sort(key=lambda x: x['max_apy'], reverse=True)`:
a stable sort, descending by `max_apy`. -/
def sort_by_max_apy_desc : List ScoredPool → List ScoredPool
  | [] => []
  | x :: xs => insert_by_max_apy_desc x (sort_by_max_apy_desc xs)

/-- The list returned on the success path: qualifying entries sorted by
`max_apy` descending. -/
def result_of (poolData : List PoolRecord)
    (entries : List (String × GaugeRecord)) (min_apy min_usd_total : ℚ) :
    List ScoredPool :=
  sort_by_max_apy_desc (high_apy_pools_of poolData entries min_apy min_usd_total)

/-- First line of the diagnostic summary the source prints (lines
127-136); the per-pool float-formatted detail lines are display-only and
not modelled. -/
def diag_summary_of (diag : List ApyDiagEntry) : String :=
  if diag.isEmpty then "No pools found with non-zero APY values"
  else "Found " ++ toString diag.length ++ " pools with non-zero APY (CRV + Extra):"

/-- The whole function `filter_high_apy_pools`: both documents (each
either a load failure or a parsed value), both thresholds; returns the
printed messages and the returned list.  Mirrors the source order:
gauges loaded and shape-checked first, then the pools document; the
`['poolData']` access on a payload without that key raises a `KeyError`
caught by the generic `except Exception` handler (line 146). -/
def filter_high_apy_pools (gauges_load : LoadResult GaugesDoc)
    (all_pools_load : LoadResult AllPoolsDoc) (min_apy min_usd_total : ℚ) :
    List String × List ScoredPool :=
  match gauges_load with
  | .fileNotFound => (["Error: File not found"], [])
  | .invalidJson => (["Error: Invalid JSON format"], [])
  | .parsed data =>
    match data.success.getD false, data.data with
    | false, _ => (["Error: Invalid gauges data structure"], [])
    | true, none => (["Error: Invalid gauges data structure"], [])
    | true, some pools_data =>
      match all_pools_load with
      | .fileNotFound => (["Error: File not found"], [])
      | .invalidJson => (["Error: Invalid JSON format"], [])
      | .parsed all_pools_data =>
        match all_pools_data.success.getD false, all_pools_data.data with
        | false, _ => (["Error: Invalid all-pools data structure"], [])
        | true, none => (["Error: Invalid all-pools data structure"], [])
        | true, some payload =>
          match payload.poolData with
          | none => (["Error: missing poolData"], [])
          | some poolData =>
            ([diag_summary_of (all_pools_with_apy_of poolData pools_data min_usd_total)],
             result_of poolData pools_data min_apy min_usd_total)

/-- Inclusion predicate transcribed from the specification wording of
claim C1: qualification items 1-6 plus the strict APY comparison of the
two totals against `min_apy`. -/
def spec_included (poolData : List PoolRecord) (min_apy min_usd_total : ℚ)
    (pool_name : String) (pool_info : GaugeRecord) : Prop :=
  pool_info.isPool.getD false = true ∧
  pool_info.hasNoCrv.getD false ≠ true ∧
  pool_info.type = some "stable" ∧
  containsSub (lowerStr pool_name) "btc" = false ∧
  containsSub (lowerStr pool_name) "eth" = false ∧
  min_usd_total ≤ (pool_usd_lookup poolData (pool_address_of pool_info)).getD 0 ∧
  ∃ a0 a1, pool_info.gaugeCrvApy = some [a0, a1] ∧
    (a0.getD 0 + (pool_extra_rewards_lookup poolData (pool_address_of pool_info)).getD 0 > min_apy ∨
     a1.getD 0 + (pool_extra_rewards_lookup poolData (pool_address_of pool_info)).getD 0 > min_apy)

/-- Inclusion predicate for the diagnostic list, transcribed from the
amended claim C3: qualification items 1-6 plus a strictly positive
total APY. -/
def spec_diag_included (poolData : List PoolRecord) (min_usd_total : ℚ)
    (pool_name : String) (pool_info : GaugeRecord) : Prop :=
  pool_info.isPool.getD false = true ∧
  pool_info.hasNoCrv.getD false ≠ true ∧
  pool_info.type = some "stable" ∧
  containsSub (lowerStr pool_name) "btc" = false ∧
  containsSub (lowerStr pool_name) "eth" = false ∧
  min_usd_total ≤ (pool_usd_lookup poolData (pool_address_of pool_info)).getD 0 ∧
  ∃ a0 a1, pool_info.gaugeCrvApy = some [a0, a1] ∧
    (a0.getD 0 + (pool_extra_rewards_lookup poolData (pool_address_of pool_info)).getD 0 > 0 ∨
     a1.getD 0 + (pool_extra_rewards_lookup poolData (pool_address_of pool_info)).getD 0 > 0)

/-- Concrete gauge record from the worked example of the specification
(section 8). -/
def exampleGauge : GaugeRecord :=
  { isPool := some true, gaugeCrvApy := some [some 5, some 6],
    hasNoCrv := some false, type := some "stable", swap := some "0xAA" }

/-- Concrete pool record from the worked example of the specification. -/
def examplePool : PoolRecord :=
  { address := some "0xaa", usdTotal := some 6000000,
    gaugeRewards := some [{ apy := some 3 }] }

/-- The survivor the loop computes for the worked example. -/
def exampleSurvivor : Survivor :=
  { a0 := some 5, a1 := some 6, extra_apy := 3, usd_total := 6000000 }

/-- The gauge entries of the worked example. -/
def exampleEntries : List (String × GaugeRecord) := [("stable3pool", exampleGauge)]

/-- The pool records of the worked example. -/
def examplePoolData : List PoolRecord := [examplePool]

/-- A gauge record whose swap address matches nothing in the worked
example pool data. -/
def unmatchedGauge : GaugeRecord :=
  { isPool := some true, gaugeCrvApy := some [some 20, some 30],
    hasNoCrv := some false, type := some "stable", swap := some "0xBB" }

/-- A gauge record with every field absent: fails qualification items
1 and 2, so the loop skips it silently. -/
def malformedGauge : GaugeRecord :=
  { isPool := none, gaugeCrvApy := none, hasNoCrv := none, type := none, swap := none }

/-- A pool record with the same lower-cased address as `examplePool` but
different values, to exercise duplicate overwriting. -/
def duplicatePool : PoolRecord :=
  { address := some "0xAA", usdTotal := some 123,
    gaugeRewards := some [{ apy := some 4 }, { apy := some 5 }] }

/-- A pool record with no address field: indexed under the empty string. -/
def noAddressPool : PoolRecord :=
  { address := none, usdTotal := some 42, gaugeRewards := some [{ apy := some 1 }] }

/-- A pool record with one apy-less reward element before a reward of 3. -/
def rewardGapPool : PoolRecord :=
  { address := some "0xcc", usdTotal := some 1,
    gaugeRewards := some [{ apy := none }, { apy := some 3 }] }

/-- The same pool record with the apy-less reward element removed. -/
def rewardOnlyPool : PoolRecord :=
  { address := some "0xcc", usdTotal := some 1,
    gaugeRewards := some [{ apy := some 3 }] }

/-- A gauge record with no swap field: its join key is the empty string. -/
def noSwapGauge : GaugeRecord :=
  { isPool := some true, gaugeCrvApy := some [some 2, some 3],
    hasNoCrv := some false, type := some "stable", swap := none }

/-- Characterization of the loop body: it returns a survivor exactly when
qualification items 1-6 all hold, and the survivor carries the two
nullable CRV APY values and the two joined quantities. -/
lemma score_pool_entry_eq_some_iff {usd_lookup extra_lookup : String → Option ℚ}
    {min_usd_total : ℚ} {pool_name : String} {pool_info : GaugeRecord} {s : Survivor} :
    score_pool_entry usd_lookup extra_lookup min_usd_total pool_name pool_info = some s ↔
      ∃ a0 a1, pool_info.gaugeCrvApy = some [a0, a1] ∧
        pool_info.isPool.getD false = true ∧
        pool_info.hasNoCrv.getD false = false ∧
        pool_info.type = some "stable" ∧
        containsSub (lowerStr pool_name) "btc" = false ∧
        containsSub (lowerStr pool_name) "eth" = false ∧
        min_usd_total ≤ (usd_lookup (pool_address_of pool_info)).getD 0 ∧
        s = { a0 := a0, a1 := a1,
              extra_apy := (extra_lookup (pool_address_of pool_info)).getD 0,
              usd_total := (usd_lookup (pool_address_of pool_info)).getD 0 } := by
  unfold score_pool_entry
  cases hp : pool_info.isPool.getD false with
  | false => simp [hp]
  | true =>
    rcases hg : pool_info.gaugeCrvApy with _ | ⟨_ | ⟨a0, _ | ⟨a1, _ | ⟨c, rest⟩⟩⟩⟩
    · simp [hg]
    · simp [hg]
    · simp [hg]
    · simp [hg]
      constructor
      · rintro ⟨h1, h2, ⟨h3, h4⟩, h5, h6⟩
        exact ⟨a0, a1, ⟨rfl, rfl⟩, h1, h2, h3, h4, h5, h6.symm⟩
      · rintro ⟨a0x, a1x, ⟨rfl, rfl⟩, h1, h2, h3, h4, h5, h6⟩
        exact ⟨h1, h2, ⟨h3, h4⟩, h5, h6.symm⟩
    · simp [hg]

lemma score_pool_entry_eq_none_of_malformed {usd_lookup extra_lookup : String → Option ℚ}
    {min_usd_total : ℚ} {pool_name : String} {pool_info : GaugeRecord}
    (h : pool_info.isPool.getD false = false ∨
      ∀ a0 a1 : Option ℚ, pool_info.gaugeCrvApy ≠ some [a0, a1]) :
    score_pool_entry usd_lookup extra_lookup min_usd_total pool_name pool_info = none := by
  cases hs : score_pool_entry usd_lookup extra_lookup min_usd_total pool_name pool_info with
  | none => rfl
  | some s =>
    rcases score_pool_entry_eq_some_iff.mp hs with ⟨a0, a1, hg, hip, -⟩
    rcases h with h | h
    · rw [hip] at h; cases h
    · exact absurd hg (h a0 a1)

lemma mem_high_apy_pools_iff {poolData : List PoolRecord}
    {entries : List (String × GaugeRecord)} {min_apy min_usd_total : ℚ} {sp : ScoredPool} :
    sp ∈ high_apy_pools_of poolData entries min_apy min_usd_total ↔
      ∃ e ∈ entries, ∃ s,
        score_pool_entry (pool_usd_lookup poolData) (pool_extra_rewards_lookup poolData)
          min_usd_total e.1 e.2 = some s ∧
        (total_apy_0 s > min_apy ∨ total_apy_1 s > min_apy) ∧
        sp = make_pool_entry e.1 e.2 s := by
  simp only [high_apy_pools_of, List.mem_filterMap, Option.bind_eq_some]
  constructor
  · rintro ⟨e, he, s, hs, hif⟩
    split_ifs at hif with hc
    exact ⟨e, he, s, hs, hc, (Option.some_inj.mp hif).symm⟩
  · rintro ⟨e, he, s, hs, hc, rfl⟩
    exact ⟨e, he, s, hs, by simp [hc]⟩

lemma mem_all_pools_with_apy_iff {poolData : List PoolRecord}
    {entries : List (String × GaugeRecord)} {min_usd_total : ℚ} {d : ApyDiagEntry} :
    d ∈ all_pools_with_apy_of poolData entries min_usd_total ↔
      ∃ e ∈ entries, ∃ s,
        score_pool_entry (pool_usd_lookup poolData) (pool_extra_rewards_lookup poolData)
          min_usd_total e.1 e.2 = some s ∧
        (total_apy_0 s > 0 ∨ total_apy_1 s > 0) ∧
        d = make_apy_diag_entry e.1 e.2 s := by
  simp only [all_pools_with_apy_of, List.mem_filterMap, Option.bind_eq_some]
  constructor
  · rintro ⟨e, he, s, hs, hif⟩
    split_ifs at hif with hc
    exact ⟨e, he, s, hs, hc, (Option.some_inj.mp hif).symm⟩
  · rintro ⟨e, he, s, hs, hc, rfl⟩
    exact ⟨e, he, s, hs, by simp [hc]⟩

lemma mem_insert_by_max_apy_desc {x y : ScoredPool} {l : List ScoredPool} :
    y ∈ insert_by_max_apy_desc x l ↔ y = x ∨ y ∈ l := by
  induction l with
  | nil => simp [insert_by_max_apy_desc]
  | cons z zs ih =>
    simp only [insert_by_max_apy_desc]
    split_ifs
    · rw [List.mem_cons, ih, List.mem_cons]; tauto
    · simp only [List.mem_cons]

lemma mem_sort_by_max_apy_desc {y : ScoredPool} {l : List ScoredPool} :
    y ∈ sort_by_max_apy_desc l ↔ y ∈ l := by
  induction l with
  | nil => simp [sort_by_max_apy_desc]
  | cons x xs ih => simp [sort_by_max_apy_desc, mem_insert_by_max_apy_desc, ih]

lemma pairwise_insert_by_max_apy_desc {x : ScoredPool} {l : List ScoredPool}
    (h : l.Pairwise (fun a b => b.max_apy ≤ a.max_apy)) :
    (insert_by_max_apy_desc x l).Pairwise (fun a b => b.max_apy ≤ a.max_apy) := by
  induction l with
  | nil => simp [insert_by_max_apy_desc]
  | cons y ys ih =>
    rcases List.pairwise_cons.mp h with ⟨hy, hys⟩
    simp only [insert_by_max_apy_desc]
    split_ifs with hlt
    · refine List.pairwise_cons.mpr ⟨?_, ih hys⟩
      intro z hz
      rcases mem_insert_by_max_apy_desc.mp hz with rfl | hz
      · exact le_of_lt hlt
      · exact hy z hz
    · refine List.pairwise_cons.mpr ⟨?_, h⟩
      intro z hz
      rcases List.mem_cons.mp hz with rfl | hz
      · exact le_of_not_lt hlt
      · exact (hy z hz).trans (le_of_not_lt hlt)

lemma sorted_sort_by_max_apy_desc (l : List ScoredPool) :
    (sort_by_max_apy_desc l).Pairwise (fun a b => b.max_apy ≤ a.max_apy) := by
  induction l with
  | nil => simp [sort_by_max_apy_desc]
  | cons x xs ih => exact pairwise_insert_by_max_apy_desc ih

lemma filter_insert_by_max_apy_desc_of_ne {x : ScoredPool} {l : List ScoredPool} {k : ℚ}
    (hx : x.max_apy ≠ k) :
    (insert_by_max_apy_desc x l).filter (fun e => decide (e.max_apy = k)) =
      l.filter (fun e => decide (e.max_apy = k)) := by
  induction l with
  | nil => simp [insert_by_max_apy_desc, hx]
  | cons y ys ih =>
    simp only [insert_by_max_apy_desc]
    split_ifs with hlt
    · simp only [List.filter_cons, ih]
    · simp [List.filter_cons, hx]

lemma filter_insert_by_max_apy_desc_of_eq {x : ScoredPool} {l : List ScoredPool} {k : ℚ}
    (hx : x.max_apy = k) :
    (insert_by_max_apy_desc x l).filter (fun e => decide (e.max_apy = k)) =
      x :: l.filter (fun e => decide (e.max_apy = k)) := by
  induction l with
  | nil => simp [insert_by_max_apy_desc, hx]
  | cons y ys ih =>
    simp only [insert_by_max_apy_desc]
    split_ifs with hlt
    · have hy : ¬ (y.max_apy = k) := by
        intro hk
        rw [hx, ← hk] at hlt
        exact lt_irrefl _ hlt
      simp only [List.filter_cons, decide_eq_true_eq, if_neg hy, ih]
    · simp [List.filter_cons, hx]

lemma filter_sort_by_max_apy_desc (l : List ScoredPool) (k : ℚ) :
    (sort_by_max_apy_desc l).filter (fun e => decide (e.max_apy = k)) =
      l.filter (fun e => decide (e.max_apy = k)) := by
  induction l with
  | nil => simp [sort_by_max_apy_desc]
  | cons x xs ih =>
    by_cases hx : x.max_apy = k
    · rw [sort_by_max_apy_desc, filter_insert_by_max_apy_desc_of_eq hx, ih]
      simp [List.filter_cons, hx]
    · rw [sort_by_max_apy_desc, filter_insert_by_max_apy_desc_of_ne hx, ih]
      simp [List.filter_cons, hx]

lemma usd_fold_no_match {l : List PoolRecord} {m : String → Option ℚ} {k : String}
    (h : ∀ q ∈ l, pool_record_key q ≠ k) :
    (l.foldl (fun lookup pool => fun k2 =>
      if k2 = pool_record_key pool then some (pool.usdTotal.getD 0) else lookup k2) m) k = m k := by
  induction l generalizing m with
  | nil => rfl
  | cons p ps ih =>
    have hp : pool_record_key p ≠ k := h p (List.mem_cons_self p ps)
    simp only [List.foldl_cons]
    rw [ih (fun q hq => h q (List.mem_cons_of_mem p hq))]
    exact if_neg (fun hk => hp hk.symm)

lemma extra_fold_no_match {l : List PoolRecord} {m : String → Option ℚ} {k : String}
    (h : ∀ q ∈ l, pool_record_key q ≠ k) :
    (l.foldl (fun lookup pool => fun k2 =>
      if k2 = pool_record_key pool then some (extra_apy_of pool) else lookup k2) m) k = m k := by
  induction l generalizing m with
  | nil => rfl
  | cons p ps ih =>
    have hp : pool_record_key p ≠ k := h p (List.mem_cons_self p ps)
    simp only [List.foldl_cons]
    rw [ih (fun q hq => h q (List.mem_cons_of_mem p hq))]
    exact if_neg (fun hk => hp hk.symm)

lemma pool_usd_lookup_no_match {poolData : List PoolRecord} {k : String}
    (h : ∀ q ∈ poolData, pool_record_key q ≠ k) :
    pool_usd_lookup poolData k = none := by
  unfold pool_usd_lookup
  rw [usd_fold_no_match h]

lemma pool_extra_rewards_lookup_no_match {poolData : List PoolRecord} {k : String}
    (h : ∀ q ∈ poolData, pool_record_key q ≠ k) :
    pool_extra_rewards_lookup poolData k = none := by
  unfold pool_extra_rewards_lookup
  rw [extra_fold_no_match h]

lemma pool_usd_lookup_last {l1 l2 : List PoolRecord} {p : PoolRecord} {k : String}
    (hk : pool_record_key p = k) (h2 : ∀ q ∈ l2, pool_record_key q ≠ k) :
    pool_usd_lookup (l1 ++ p :: l2) k = some (p.usdTotal.getD 0) := by
  unfold pool_usd_lookup
  rw [List.foldl_append, List.foldl_cons]
  rw [usd_fold_no_match h2]
  simp [hk]

lemma pool_extra_rewards_lookup_last {l1 l2 : List PoolRecord} {p : PoolRecord} {k : String}
    (hk : pool_record_key p = k) (h2 : ∀ q ∈ l2, pool_record_key q ≠ k) :
    pool_extra_rewards_lookup (l1 ++ p :: l2) k = some (extra_apy_of p) := by
  unfold pool_extra_rewards_lookup
  rw [List.foldl_append, List.foldl_cons]
  rw [extra_fold_no_match h2]
  simp [hk]

lemma keys_nodup_snd_eq {l : List (String × GaugeRecord)}
    (h : (l.map Prod.fst).Nodup) {n : String} {a b : GaugeRecord}
    (ha : (n, a) ∈ l) (hb : (n, b) ∈ l) : a = b := by
  induction l with
  | nil => cases ha
  | cons e es ih =>
    rw [List.map_cons, List.nodup_cons] at h
    obtain ⟨h1, h2⟩ := h
    rcases List.mem_cons.mp ha with ha1 | ha2 <;> rcases List.mem_cons.mp hb with hb1 | hb2
    · exact congrArg Prod.snd (ha1.trans hb1.symm)
    · exfalso
      apply h1
      have hn : n = e.1 := congrArg Prod.fst ha1
      rw [← hn]
      exact List.mem_map_of_mem Prod.fst hb2
    · exfalso
      apply h1
      have hn : n = e.1 := congrArg Prod.fst hb1
      rw [← hn]
      exact List.mem_map_of_mem Prod.fst ha2
    · exact ih h2 ha2 hb2

lemma example_score_eq :
    score_pool_entry (pool_usd_lookup examplePoolData)
      (pool_extra_rewards_lookup examplePoolData) 5000000 "stable3pool" exampleGauge =
      some exampleSurvivor := by
  simp [score_pool_entry, pool_usd_lookup, pool_extra_rewards_lookup, exampleGauge,
    examplePool, examplePoolData, exampleSurvivor, pool_record_key, pool_address_of,
    extra_apy_of, lowerStr, containsSub, hasInfixChars]
  norm_num

lemma example_result_eq :
    (filter_high_apy_pools
      (LoadResult.parsed { success := some true, data := some exampleEntries })
      (LoadResult.parsed { success := some true, data := some { poolData := some examplePoolData } })
      7 5000000).2 = [make_pool_entry "stable3pool" exampleGauge exampleSurvivor] := by
  have hres : (filter_high_apy_pools
      (LoadResult.parsed { success := some true, data := some exampleEntries })
      (LoadResult.parsed { success := some true, data := some { poolData := some examplePoolData } })
      7 5000000).2 = result_of examplePoolData exampleEntries 7 5000000 := rfl
  rw [hres]
  unfold result_of high_apy_pools_of
  rw [exampleEntries]
  simp only [List.filterMap_cons, List.filterMap_nil]
  rw [example_score_eq]
  simp only [Option.bind_some, exampleSurvivor, total_apy_0, total_apy_1, Option.getD_some]
  norm_num [sort_by_max_apy_desc, insert_by_max_apy_desc]

/-- C1: for every pair of well-formed input documents and thresholds, a
gauge entry appears in the returned result list if and only if `isPool`
is true, `gaugeCrvApy` is a present two-element list, `hasNoCrv` is not
true, `type` equals `stable`, the lower-cased name contains neither
`btc` nor `eth`, the joined `usdTotal` is at least `min_usd_total`, and
one of the two total APYs strictly exceeds `min_apy`. -/
theorem c1_result_membership_iff (poolData : List PoolRecord)
    (entries : List (String × GaugeRecord)) (min_apy min_usd_total : ℚ)
    (pool_name : String) (pool_info : GaugeRecord)
    (hmem : (pool_name, pool_info) ∈ entries) :
    (∃ sp ∈ (filter_high_apy_pools
        (LoadResult.parsed { success := some true, data := some entries })
        (LoadResult.parsed { success := some true, data := some { poolData := some poolData } })
        min_apy min_usd_total).2,
      sp.name = pool_name ∧ sp.pool_info = pool_info) ↔
    spec_included poolData min_apy min_usd_total pool_name pool_info := by
  have hres : (filter_high_apy_pools
      (LoadResult.parsed { success := some true, data := some entries })
      (LoadResult.parsed { success := some true, data := some { poolData := some poolData } })
      min_apy min_usd_total).2 = result_of poolData entries min_apy min_usd_total := rfl
  rw [hres]
  unfold result_of
  constructor
  · rintro ⟨sp, hsp, hname, hinfo⟩
    rcases mem_high_apy_pools_iff.mp (mem_sort_by_max_apy_desc.mp hsp) with
      ⟨⟨n, i⟩, he, s, hs, hapy, rfl⟩
    simp only [make_pool_entry] at hname hinfo
    subst hname hinfo
    rcases score_pool_entry_eq_some_iff.mp hs with ⟨a0, a1, hg, h1, h2, h3, h4, h5, h6, hseq⟩
    refine ⟨h1, by simp [h2], h3, h4, h5, h6, a0, a1, hg, ?_⟩
    rcases hapy with h | h
    · exact Or.inl (by rw [hseq] at h; simpa [total_apy_0] using h)
    · exact Or.inr (by rw [hseq] at h; simpa [total_apy_1] using h)
  · rintro ⟨h1, h2, h3, h4, h5, h6, a0, a1, hg, hapy⟩
    refine ⟨make_pool_entry pool_name pool_info
      { a0 := a0, a1 := a1,
        extra_apy := (pool_extra_rewards_lookup poolData (pool_address_of pool_info)).getD 0,
        usd_total := (pool_usd_lookup poolData (pool_address_of pool_info)).getD 0 },
      ?_, rfl, rfl⟩
    refine mem_sort_by_max_apy_desc.mpr (mem_high_apy_pools_iff.mpr
      ⟨(pool_name, pool_info), hmem, _, ?_, ?_, rfl⟩)
    · exact score_pool_entry_eq_some_iff.mpr
        ⟨a0, a1, hg, h1, by simpa using h2, h3, h4, h5, h6, rfl⟩
    · simpa [total_apy_0, total_apy_1] using hapy

/-- C2: every entry of the returned result list carries
`totalApyRange[i] = (gaugeCrvApy[i] or 0) + extraRewardsApy`,
`maxApy = max(totalApyRange)`, and its `extraRewardsApy` is the joined
pool's summed `gaugeRewards` APY (the extra-rewards index value for its
lower-cased swap address, 0 when unmatched). -/
theorem c2_scored_pool_fields (poolData : List PoolRecord)
    (entries : List (String × GaugeRecord)) (min_apy min_usd_total : ℚ)
    (sp : ScoredPool)
    (hsp : sp ∈ (filter_high_apy_pools
        (LoadResult.parsed { success := some true, data := some entries })
        (LoadResult.parsed { success := some true, data := some { poolData := some poolData } })
        min_apy min_usd_total).2) :
    ∃ a0 a1 : Option ℚ, sp.gaugeCrvApy = [a0, a1] ∧
      sp.total_apy_range = (a0.getD 0 + sp.extra_rewards_apy, a1.getD 0 + sp.extra_rewards_apy) ∧
      sp.max_apy = max sp.total_apy_range.1 sp.total_apy_range.2 ∧
      sp.extra_rewards_apy =
        (pool_extra_rewards_lookup poolData (pool_address_of sp.pool_info)).getD 0 := by
  have hres : (filter_high_apy_pools
      (LoadResult.parsed { success := some true, data := some entries })
      (LoadResult.parsed { success := some true, data := some { poolData := some poolData } })
      min_apy min_usd_total).2 = result_of poolData entries min_apy min_usd_total := rfl
  rw [hres] at hsp
  unfold result_of at hsp
  rcases mem_high_apy_pools_iff.mp (mem_sort_by_max_apy_desc.mp hsp) with
    ⟨⟨n, i⟩, he, s, hs, hapy, rfl⟩
  rcases score_pool_entry_eq_some_iff.mp hs with ⟨a0, a1, hg, h1, h2, h3, h4, h5, h6, hseq⟩
  refine ⟨s.a0, s.a1, rfl, ?_, rfl, ?_⟩
  · simp [make_pool_entry, total_apy_0, total_apy_1]
  · simp only [make_pool_entry]
    rw [hseq]

/-- C5: the returned result list is sorted by `max_apy` in descending
order, and the sort is stable: for every key, the result's entries with
that `max_apy` are exactly the qualifying entries with that `max_apy`
in the order their gauge entries appeared in the input document (the
order of the unsorted `high_apy_pools` list). -/
theorem c5_result_sorted_and_stable (poolData : List PoolRecord)
    (entries : List (String × GaugeRecord)) (min_apy min_usd_total : ℚ) :
    ((filter_high_apy_pools
        (LoadResult.parsed { success := some true, data := some entries })
        (LoadResult.parsed { success := some true, data := some { poolData := some poolData } })
        min_apy min_usd_total).2).Pairwise (fun a b => b.max_apy ≤ a.max_apy) ∧
    ∀ k : ℚ,
      ((filter_high_apy_pools
          (LoadResult.parsed { success := some true, data := some entries })
          (LoadResult.parsed { success := some true, data := some { poolData := some poolData } })
          min_apy min_usd_total).2).filter (fun e => decide (e.max_apy = k)) =
        (high_apy_pools_of poolData entries min_apy min_usd_total).filter
          (fun e => decide (e.max_apy = k)) := by
  exact ⟨sorted_sort_by_max_apy_desc _, fun k => filter_sort_by_max_apy_desc _ k⟩

/-- Witness for C1 at the worked example input. -/
theorem c1_witness :
    ("stable3pool", exampleGauge) ∈ exampleEntries ∧
    ((∃ sp ∈ (filter_high_apy_pools
        (LoadResult.parsed { success := some true, data := some exampleEntries })
        (LoadResult.parsed { success := some true, data := some { poolData := some examplePoolData } })
        7 5000000).2,
      sp.name = "stable3pool" ∧ sp.pool_info = exampleGauge) ↔
      spec_included examplePoolData 7 5000000 "stable3pool" exampleGauge) :=
  ⟨by simp [exampleEntries],
   c1_result_membership_iff examplePoolData exampleEntries 7 5000000 "stable3pool" exampleGauge
     (by simp [exampleEntries])⟩

/-- Witness for C2 at the worked example input: the single result entry
satisfies the scoring equations. -/
theorem c2_witness :
    make_pool_entry "stable3pool" exampleGauge exampleSurvivor ∈ (filter_high_apy_pools
        (LoadResult.parsed { success := some true, data := some exampleEntries })
        (LoadResult.parsed { success := some true, data := some { poolData := some examplePoolData } })
        7 5000000).2 ∧
    ∃ a0 a1 : Option ℚ,
      (make_pool_entry "stable3pool" exampleGauge exampleSurvivor).gaugeCrvApy = [a0, a1] ∧
      (make_pool_entry "stable3pool" exampleGauge exampleSurvivor).total_apy_range =
        (a0.getD 0 + (make_pool_entry "stable3pool" exampleGauge exampleSurvivor).extra_rewards_apy,
         a1.getD 0 + (make_pool_entry "stable3pool" exampleGauge exampleSurvivor).extra_rewards_apy) ∧
      (make_pool_entry "stable3pool" exampleGauge exampleSurvivor).max_apy =
        max (make_pool_entry "stable3pool" exampleGauge exampleSurvivor).total_apy_range.1
          (make_pool_entry "stable3pool" exampleGauge exampleSurvivor).total_apy_range.2 ∧
      (make_pool_entry "stable3pool" exampleGauge exampleSurvivor).extra_rewards_apy =
        (pool_extra_rewards_lookup examplePoolData
          (pool_address_of (make_pool_entry "stable3pool" exampleGauge exampleSurvivor).pool_info)).getD 0 := by
  have hmem : make_pool_entry "stable3pool" exampleGauge exampleSurvivor ∈ (filter_high_apy_pools
      (LoadResult.parsed { success := some true, data := some exampleEntries })
      (LoadResult.parsed { success := some true, data := some { poolData := some examplePoolData } })
      7 5000000).2 := by
    rw [example_result_eq]
    exact List.mem_singleton.mpr rfl
  exact ⟨hmem, c2_scored_pool_fields examplePoolData exampleEntries 7 5000000 _ hmem⟩

/-- C3 counterexample: the gauge entry named `btcpool` passes
qualification items 1-4 and its first total APY is strictly positive,
yet the diagnostic list of the source is empty for this input — the
source collects a diagnostic entry only after the btc/eth name check
and the liquidity check have both passed, so the claim that the
diagnostic list includes entries excluded only by those two checks is
false. -/
theorem c3_counterexample :
    exampleGauge.isPool.getD false = true ∧
    exampleGauge.gaugeCrvApy = some [some 5, some 6] ∧
    exampleGauge.hasNoCrv.getD false = false ∧
    exampleGauge.type = some "stable" ∧
    (some (5 : ℚ)).getD 0 +
      (pool_extra_rewards_lookup examplePoolData (pool_address_of exampleGauge)).getD 0 > 0 ∧
    all_pools_with_apy_of examplePoolData [("btcpool", exampleGauge)] 5000000 = [] := by
  refine ⟨by decide, by decide, by decide, by decide, ?_, ?_⟩
  · have hx : (pool_extra_rewards_lookup examplePoolData (pool_address_of exampleGauge)).getD 0 = 3 := by
      simp [pool_extra_rewards_lookup, examplePoolData, examplePool, exampleGauge,
        pool_record_key, pool_address_of, extra_apy_of, lowerStr]
    rw [hx]
    norm_num
  · have hb : containsSub (lowerStr "btcpool") "btc" = true := by decide
    have hnone : score_pool_entry (pool_usd_lookup examplePoolData)
        (pool_extra_rewards_lookup examplePoolData) 5000000 "btcpool" exampleGauge = none := by
      simp [score_pool_entry, exampleGauge, hb]
    unfold all_pools_with_apy_of
    simp only [List.filterMap_cons, List.filterMap_nil, hnone, Option.none_bind]

/-- C3 amended: the diagnostic list is filtered by every one of
qualification items 1-6 — including the btc/eth name check and the
liquidity threshold — and bypasses only the `min_apy` comparison: a
gauge entry appears in it if and only if items 1-6 hold and one of its
total APYs is strictly positive. -/
theorem c3_amended_diag_membership_iff (poolData : List PoolRecord)
    (entries : List (String × GaugeRecord)) (min_usd_total : ℚ)
    (pool_name : String) (pool_info : GaugeRecord)
    (hnodup : (entries.map Prod.fst).Nodup)
    (hmem : (pool_name, pool_info) ∈ entries) :
    (∃ d ∈ all_pools_with_apy_of poolData entries min_usd_total, d.name = pool_name) ↔
    spec_diag_included poolData min_usd_total pool_name pool_info := by
  constructor
  · rintro ⟨d, hd, hname⟩
    rcases mem_all_pools_with_apy_iff.mp hd with ⟨⟨n, i⟩, he, s, hs, hapy, rfl⟩
    simp only [make_apy_diag_entry] at hname
    subst hname
    have hi : i = pool_info := keys_nodup_snd_eq hnodup he hmem
    subst hi
    rcases score_pool_entry_eq_some_iff.mp hs with ⟨a0, a1, hg, h1, h2, h3, h4, h5, h6, hseq⟩
    refine ⟨h1, by simp [h2], h3, h4, h5, h6, a0, a1, hg, ?_⟩
    rcases hapy with h | h
    · exact Or.inl (by rw [hseq] at h; simpa [total_apy_0] using h)
    · exact Or.inr (by rw [hseq] at h; simpa [total_apy_1] using h)
  · rintro ⟨h1, h2, h3, h4, h5, h6, a0, a1, hg, hapy⟩
    refine ⟨make_apy_diag_entry pool_name pool_info
      { a0 := a0, a1 := a1,
        extra_apy := (pool_extra_rewards_lookup poolData (pool_address_of pool_info)).getD 0,
        usd_total := (pool_usd_lookup poolData (pool_address_of pool_info)).getD 0 },
      ?_, rfl⟩
    refine mem_all_pools_with_apy_iff.mpr ⟨(pool_name, pool_info), hmem, _, ?_, ?_, rfl⟩
    · exact score_pool_entry_eq_some_iff.mpr
        ⟨a0, a1, hg, h1, by simpa using h2, h3, h4, h5, h6, rfl⟩
    · simpa [total_apy_0, total_apy_1] using hapy

/-- Witness for the amended C3 at the worked example input. -/
theorem c3_amended_witness :
    (exampleEntries.map Prod.fst).Nodup ∧
    ("stable3pool", exampleGauge) ∈ exampleEntries ∧
    ((∃ d ∈ all_pools_with_apy_of examplePoolData exampleEntries 5000000,
        d.name = "stable3pool") ↔
      spec_diag_included examplePoolData 5000000 "stable3pool" exampleGauge) :=
  ⟨by simp [exampleEntries], by simp [exampleEntries],
   c3_amended_diag_membership_iff examplePoolData exampleEntries 5000000 "stable3pool"
     exampleGauge (by simp [exampleEntries]) (by simp [exampleEntries])⟩

/-- C4: whenever a source file is missing, is not valid JSON, or a
parsed document lacks a truthy `success` flag or a `data` payload, the
function prints exactly one error message and returns the empty list. -/
theorem c4_load_failure_empty_result (gauges_load : LoadResult GaugesDoc)
    (all_pools_load : LoadResult AllPoolsDoc) (min_apy min_usd_total : ℚ)
    (h : gauges_load = LoadResult.fileNotFound ∨ gauges_load = LoadResult.invalidJson ∨
      (∃ gd, gauges_load = LoadResult.parsed gd ∧
        (gd.success.getD false = false ∨ gd.data = none)) ∨
      all_pools_load = LoadResult.fileNotFound ∨ all_pools_load = LoadResult.invalidJson ∨
      (∃ pd, all_pools_load = LoadResult.parsed pd ∧
        (pd.success.getD false = false ∨ pd.data = none))) :
    (filter_high_apy_pools gauges_load all_pools_load min_apy min_usd_total).2 = [] ∧
    ∃ msg, (filter_high_apy_pools gauges_load all_pools_load min_apy min_usd_total).1 = [msg] ∧
      msg ∈ ["Error: File not found", "Error: Invalid JSON format",
             "Error: Invalid gauges data structure",
             "Error: Invalid all-pools data structure"] := by
  rcases h with rfl | rfl | ⟨gd, rfl, hgd⟩ | hp
  · exact ⟨rfl, _, rfl, by simp⟩
  · exact ⟨rfl, _, rfl, by simp⟩
  · have hred : filter_high_apy_pools (LoadResult.parsed gd) all_pools_load min_apy min_usd_total =
        (["Error: Invalid gauges data structure"], []) := by
      rcases hgd with hs | hd
      · simp only [filter_high_apy_pools]
        rw [hs]
      · cases hb : gd.success.getD false
        · simp only [filter_high_apy_pools]
          rw [hb]
        · simp only [filter_high_apy_pools]
          rw [hb, hd]
    rw [hred]
    exact ⟨rfl, _, rfl, by simp⟩
  · cases gauges_load with
    | fileNotFound => exact ⟨rfl, _, rfl, by simp⟩
    | invalidJson => exact ⟨rfl, _, rfl, by simp⟩
    | parsed gd =>
      cases hb : gd.success.getD false with
      | false =>
        have hred : filter_high_apy_pools (LoadResult.parsed gd) all_pools_load min_apy min_usd_total =
            (["Error: Invalid gauges data structure"], []) := by
          simp only [filter_high_apy_pools]
          rw [hb]
        rw [hred]
        exact ⟨rfl, _, rfl, by simp⟩
      | true =>
        cases hd : gd.data with
        | none =>
          have hred : filter_high_apy_pools (LoadResult.parsed gd) all_pools_load min_apy min_usd_total =
              (["Error: Invalid gauges data structure"], []) := by
            simp only [filter_high_apy_pools]
            rw [hb, hd]
          rw [hred]
          exact ⟨rfl, _, rfl, by simp⟩
        | some entries =>
          rcases hp with rfl | rfl | ⟨pd, rfl, hpd⟩
          · have hred : filter_high_apy_pools (LoadResult.parsed gd) LoadResult.fileNotFound min_apy min_usd_total =
                (["Error: File not found"], []) := by
              simp only [filter_high_apy_pools]
              rw [hb, hd]
            rw [hred]
            exact ⟨rfl, _, rfl, by simp⟩
          · have hred : filter_high_apy_pools (LoadResult.parsed gd) LoadResult.invalidJson min_apy min_usd_total =
                (["Error: Invalid JSON format"], []) := by
              simp only [filter_high_apy_pools]
              rw [hb, hd]
            rw [hred]
            exact ⟨rfl, _, rfl, by simp⟩
          · have hred : filter_high_apy_pools (LoadResult.parsed gd) (LoadResult.parsed pd) min_apy min_usd_total =
                (["Error: Invalid all-pools data structure"], []) := by
              rcases hpd with hs2 | hd2
              · simp only [filter_high_apy_pools]
                rw [hb, hd, hs2]
              · cases hb2 : pd.success.getD false
                · simp only [filter_high_apy_pools]
                  rw [hb, hd, hb2]
                · simp only [filter_high_apy_pools]
                  rw [hb, hd, hb2, hd2]
            rw [hred]
            exact ⟨rfl, _, rfl, by simp⟩

/-- Witness for C4: an invalid-JSON gauges file yields an error message
and the empty result. -/
theorem c4_witness :
    (filter_high_apy_pools (LoadResult.invalidJson : LoadResult GaugesDoc)
      (LoadResult.parsed { success := some true, data := some { poolData := some examplePoolData } })
      7 5000000).2 = [] ∧
    ∃ msg, (filter_high_apy_pools (LoadResult.invalidJson : LoadResult GaugesDoc)
      (LoadResult.parsed { success := some true, data := some { poolData := some examplePoolData } })
      7 5000000).1 = [msg] ∧
      msg ∈ ["Error: File not found", "Error: Invalid JSON format",
             "Error: Invalid gauges data structure",
             "Error: Invalid all-pools data structure"] :=
  c4_load_failure_empty_result _ _ _ _ (Or.inr (Or.inl rfl))

/-- C6: a gauge entry whose lower-cased swap address matches no record
of the liquidity index gets joined `usdTotal = 0` and
`extraRewardsApy = 0`, and whenever `min_usd_total` is positive no
result entry carries that gauge record. -/
theorem c6_unmatched_join_defaults (poolData : List PoolRecord)
    (entries : List (String × GaugeRecord)) (min_apy min_usd_total : ℚ)
    (pool_info : GaugeRecord)
    (h : ∀ q ∈ poolData, pool_record_key q ≠ pool_address_of pool_info) :
    (pool_usd_lookup poolData (pool_address_of pool_info)).getD 0 = 0 ∧
    (pool_extra_rewards_lookup poolData (pool_address_of pool_info)).getD 0 = 0 ∧
    (0 < min_usd_total →
      ∀ sp ∈ (filter_high_apy_pools
          (LoadResult.parsed { success := some true, data := some entries })
          (LoadResult.parsed { success := some true, data := some { poolData := some poolData } })
          min_apy min_usd_total).2,
        sp.pool_info ≠ pool_info) := by
  have hu := pool_usd_lookup_no_match h
  have hx := pool_extra_rewards_lookup_no_match h
  refine ⟨by rw [hu]; rfl, by rw [hx]; rfl, ?_⟩
  intro hpos sp hsp heq
  have hres : (filter_high_apy_pools
      (LoadResult.parsed { success := some true, data := some entries })
      (LoadResult.parsed { success := some true, data := some { poolData := some poolData } })
      min_apy min_usd_total).2 = result_of poolData entries min_apy min_usd_total := rfl
  rw [hres] at hsp
  unfold result_of at hsp
  rcases mem_high_apy_pools_iff.mp (mem_sort_by_max_apy_desc.mp hsp) with
    ⟨⟨n, i⟩, he, s, hs, hapy, rfl⟩
  have hi : i = pool_info := heq
  subst hi
  rcases score_pool_entry_eq_some_iff.mp hs with ⟨a0, a1, hg, h1, h2, h3, h4, h5, h6, hseq⟩
  rw [hu] at h6
  simp only [Option.getD_none] at h6
  exact absurd (hpos.trans_le h6) (lt_irrefl 0)

/-- Witness for C6: the `0xbb` gauge matches nothing in the worked
example pool data. -/
theorem c6_witness :
    (∀ q ∈ examplePoolData, pool_record_key q ≠ pool_address_of unmatchedGauge) ∧
    ((pool_usd_lookup examplePoolData (pool_address_of unmatchedGauge)).getD 0 = 0 ∧
     (pool_extra_rewards_lookup examplePoolData (pool_address_of unmatchedGauge)).getD 0 = 0 ∧
     (0 < (5000000 : ℚ) →
       ∀ sp ∈ (filter_high_apy_pools
           (LoadResult.parsed { success := some true, data := some exampleEntries })
           (LoadResult.parsed { success := some true, data := some { poolData := some examplePoolData } })
           7 5000000).2,
         sp.pool_info ≠ unmatchedGauge)) :=
  ⟨by decide,
   c6_unmatched_join_defaults examplePoolData exampleEntries 7 5000000 unmatchedGauge (by decide)⟩

/-- C7: a gauge entry lacking the required fields (`isPool` not truthy,
or `gaugeCrvApy` not a two-element list) is skipped silently: both the
returned result list and the diagnostic list are the same as if the
entry were absent. -/
theorem c7_malformed_entry_skipped (poolData : List PoolRecord)
    (l1 l2 : List (String × GaugeRecord)) (min_apy min_usd_total : ℚ)
    (pool_name : String) (pool_info : GaugeRecord)
    (h : pool_info.isPool.getD false = false ∨
      ∀ a0 a1 : Option ℚ, pool_info.gaugeCrvApy ≠ some [a0, a1]) :
    (filter_high_apy_pools
        (LoadResult.parsed
          { success := some true, data := some (l1 ++ (pool_name, pool_info) :: l2) })
        (LoadResult.parsed { success := some true, data := some { poolData := some poolData } })
        min_apy min_usd_total).2 =
      (filter_high_apy_pools
        (LoadResult.parsed { success := some true, data := some (l1 ++ l2) })
        (LoadResult.parsed { success := some true, data := some { poolData := some poolData } })
        min_apy min_usd_total).2 ∧
    all_pools_with_apy_of poolData (l1 ++ (pool_name, pool_info) :: l2) min_usd_total =
      all_pools_with_apy_of poolData (l1 ++ l2) min_usd_total := by
  have hnone : score_pool_entry (pool_usd_lookup poolData) (pool_extra_rewards_lookup poolData)
      min_usd_total pool_name pool_info = none :=
    score_pool_entry_eq_none_of_malformed h
  have hhigh : high_apy_pools_of poolData (l1 ++ (pool_name, pool_info) :: l2)
      min_apy min_usd_total = high_apy_pools_of poolData (l1 ++ l2) min_apy min_usd_total := by
    unfold high_apy_pools_of
    simp only [List.filterMap_append, List.filterMap_cons, hnone, Option.none_bind]
  have hdiag : all_pools_with_apy_of poolData (l1 ++ (pool_name, pool_info) :: l2)
      min_usd_total = all_pools_with_apy_of poolData (l1 ++ l2) min_usd_total := by
    unfold all_pools_with_apy_of
    simp only [List.filterMap_append, List.filterMap_cons, hnone, Option.none_bind]
  refine ⟨?_, hdiag⟩
  show result_of poolData (l1 ++ (pool_name, pool_info) :: l2) min_apy min_usd_total =
    result_of poolData (l1 ++ l2) min_apy min_usd_total
  unfold result_of
  rw [hhigh]

/-- Witness for C7: inserting an all-fields-absent gauge entry after the
worked example entry changes neither list. -/
theorem c7_witness :
    malformedGauge.isPool.getD false = false ∧
    ((filter_high_apy_pools
        (LoadResult.parsed
          { success := some true, data := some (exampleEntries ++ ("junk", malformedGauge) :: []) })
        (LoadResult.parsed { success := some true, data := some { poolData := some examplePoolData } })
        7 5000000).2 =
      (filter_high_apy_pools
        (LoadResult.parsed { success := some true, data := some (exampleEntries ++ []) })
        (LoadResult.parsed { success := some true, data := some { poolData := some examplePoolData } })
        7 5000000).2 ∧
     all_pools_with_apy_of examplePoolData (exampleEntries ++ ("junk", malformedGauge) :: []) 5000000 =
       all_pools_with_apy_of examplePoolData (exampleEntries ++ []) 5000000) :=
  ⟨by decide,
   c7_malformed_entry_skipped examplePoolData exampleEntries [] 7 5000000 "junk" malformedGauge
     (Or.inl (by decide))⟩

/-- C8: when Document B holds several records with the same lower-cased
address, both indices map that address to the values of the last such
record; earlier duplicates are overwritten. -/
theorem c8_duplicate_address_last_wins (l1 l2 : List PoolRecord) (p : PoolRecord) (k : String)
    (_hdup : ∃ q ∈ l1, pool_record_key q = k)
    (hk : pool_record_key p = k)
    (h2 : ∀ q ∈ l2, pool_record_key q ≠ k) :
    pool_usd_lookup (l1 ++ p :: l2) k = some (p.usdTotal.getD 0) ∧
    pool_extra_rewards_lookup (l1 ++ p :: l2) k = some (extra_apy_of p) :=
  ⟨pool_usd_lookup_last hk h2, pool_extra_rewards_lookup_last hk h2⟩

/-- Witness for C8: `duplicatePool` repeats the worked example address
(up to case) and its values win. -/
theorem c8_witness :
    (∃ q ∈ [examplePool], pool_record_key q = "0xaa") ∧
    pool_usd_lookup ([examplePool] ++ duplicatePool :: []) "0xaa" =
      some (duplicatePool.usdTotal.getD 0) ∧
    pool_extra_rewards_lookup ([examplePool] ++ duplicatePool :: []) "0xaa" =
      some (extra_apy_of duplicatePool) :=
  ⟨by decide,
   c8_duplicate_address_last_wins [examplePool] [] duplicatePool "0xaa"
     (by decide) (by decide) (by decide)⟩

/-- C9: a gauge entry with no swap field gets the join key `""`, a pool
record with no address field is indexed under `""` as well, and (when
that record is the last one with key `""`) the gauge entry joins to that
record's `usdTotal` and summed rewards instead of the 0/0
missing-join defaults. -/
theorem c9_empty_key_join (l1 l2 : List PoolRecord) (p : PoolRecord) (pool_info : GaugeRecord)
    (hswap : pool_info.swap = none) (haddr : p.address = none)
    (h2 : ∀ q ∈ l2, pool_record_key q ≠ "") :
    pool_address_of pool_info = "" ∧ pool_record_key p = "" ∧
    (pool_usd_lookup (l1 ++ p :: l2) (pool_address_of pool_info)).getD 0 = p.usdTotal.getD 0 ∧
    (pool_extra_rewards_lookup (l1 ++ p :: l2) (pool_address_of pool_info)).getD 0 =
      extra_apy_of p := by
  have ha : pool_address_of pool_info = "" := by
    rw [pool_address_of, hswap]
    decide
  have hk : pool_record_key p = "" := by
    rw [pool_record_key, haddr]
    decide
  refine ⟨ha, hk, ?_, ?_⟩
  · rw [ha, pool_usd_lookup_last hk h2]
    rfl
  · rw [ha, pool_extra_rewards_lookup_last hk h2]
    rfl

/-- Witness for C9: the swap-less gauge joins to the address-less pool
record. -/
theorem c9_witness :
    noSwapGauge.swap = none ∧ noAddressPool.address = none ∧
    (pool_address_of noSwapGauge = "" ∧ pool_record_key noAddressPool = "" ∧
     (pool_usd_lookup ([] ++ noAddressPool :: []) (pool_address_of noSwapGauge)).getD 0 =
       noAddressPool.usdTotal.getD 0 ∧
     (pool_extra_rewards_lookup ([] ++ noAddressPool :: []) (pool_address_of noSwapGauge)).getD 0 =
       extra_apy_of noAddressPool) :=
  ⟨rfl, rfl,
   c9_empty_key_join [] [] noAddressPool noSwapGauge rfl rfl (by decide)⟩

/-- C10: a `gaugeRewards` element with no `apy` key contributes zero to
the summed extra-rewards APY: the sum with it equals the sum without
it. -/
theorem c10_missing_apy_contributes_zero (p q : PoolRecord)
    (rs1 rs2 : List RewardRecord) (r : RewardRecord)
    (hp : p.gaugeRewards = some (rs1 ++ r :: rs2))
    (hq : q.gaugeRewards = some (rs1 ++ rs2))
    (hr : r.apy = none) :
    extra_apy_of p = extra_apy_of q := by
  unfold extra_apy_of
  rw [hp, hq]
  simp [List.map_append, List.sum_append, hr]

/-- Witness for C10 on two concrete pool records. -/
theorem c10_witness :
    (({ apy := none } : RewardRecord)).apy = none ∧
    extra_apy_of rewardGapPool = extra_apy_of rewardOnlyPool :=
  ⟨rfl,
   c10_missing_apy_contributes_zero rewardGapPool rewardOnlyPool
     [] [{ apy := some 3 }] { apy := none } rfl rfl rfl⟩
